import Mathlib

/-!
Verification development for the agenium client SDK core: name/URI
validation, the directory (DNS) resolver with its TTL cache, the session
lifecycle, the tool registry invocation contract, and protocol frame
validation.  Python strings are embedded as lists of Unicode code points
(`Str`), mutable per-instance dictionaries as association lists, and the
network as an explicit function from the looked-up name to an HTTP
outcome.  All definitions are translated from the Python source in
`src/agenium`; the one definition taken from the specification text
instead (the session transition validator, which the source does not
implement) is marked as such in its doc comment.
-/

set_option maxRecDepth 10000

/-- Python strings are sequences of Unicode code points (surrogates
included), embedded as lists of naturals. -/
abbrev Str : Type := List Nat

/-- Embed a Lean string literal as a Python string value. -/
def pys (s : String) : Str := s.data.map Char.toNat

/-- Embedding of Python `str.lower` on one code point: the ASCII case
mapping, the identity on every other code point.  Python's full Unicode
lowercasing differs on some non-ASCII code points — it can even expand
one code point into several (U+0130 lowers to U+0069 U+0307) — but the
output characters of a non-ASCII mapping stay in the same character-class
region of `_AGENT_NAME_RE` as the input (code points in U+0080..U+FFFF
lower to class members, code points above U+FFFF lower to code points
above U+FFFF), so the identity is interchangeable with the real mapping
in every character-class test this development performs.  Because the
lowered string's length is not preserved by the real mapping, the C8
characterization below states its length bounds on the original string,
which is exactly where `validate_agent_name` in the source checks them. -/
def pyLowerChar (c : Nat) : Nat := if 65 ≤ c ∧ c ≤ 90 then c + 32 else c

/-- Embedding of Python `str.lower`. -/
def pyLower (s : Str) : Str := s.map pyLowerChar

/-- Association-list lookup, embedding `dict.get` for a per-instance
Python dictionary. -/
def alookup {β : Type} (m : List (Str × β)) (k : Str) : Option β :=
  match m with
  | [] => none
  | (k', v) :: rest => if k' = k then some v else alookup rest k

/-- Association-list store, embedding `d[k] = v`: overwrite in place,
append new keys at the end (Python dict insertion order). -/
def aset {β : Type} (m : List (Str × β)) (k : Str) (v : β) : List (Str × β) :=
  match m with
  | [] => [(k, v)]
  | (k', v') :: rest => if k' = k then (k, v) :: rest else (k', v') :: aset rest k v

/-- Embedding of `s.startswith(p)` (first argument is the prefix). -/
def startsWithPy : Str → Str → Bool
  | [], _ => true
  | _ :: _, [] => false
  | p :: ps, c :: cs => decide (p = c) && startsWithPy ps cs

/-- Embedding of `s.startswith("-")`. -/
def startsDash : Str → Bool
  | [] => false
  | c :: _ => decide (c = 45)

/-- Embedding of `s.endswith("-")`. -/
def endsDash (s : Str) : Bool := startsDash s.reverse

/-- Character class `[a-z0-9\u0080-￿]` of the agent-name regular
expression `_AGENT_NAME_RE` in `core/types.py`. -/
def inNameClass (c : Nat) : Bool :=
  (97 ≤ c && c ≤ 122) || (48 ≤ c && c ≤ 57) || (128 ≤ c && c ≤ 65535)

/-- Character class `[a-z0-9\u0080-￿-]` (the name class plus the
hyphen), used for interior characters by `_AGENT_NAME_RE`. -/
def inNameClassH (c : Nat) : Bool := inNameClass c || decide (c = 45)

/-- Matcher for the tail `[a-z0-9\u0080-￿-]*[a-z0-9\u0080-￿]`
of `_AGENT_NAME_RE`: all characters in the hyphen-extended class, the
last one in the plain class. -/
def tailMatch : Str → Bool
  | [] => false
  | [c] => inNameClass c
  | c :: rest => inNameClassH c && tailMatch rest

/-- Matcher for the pattern core
`[a-z0-9\u0080-￿]([a-z0-9\u0080-￿-]*[a-z0-9\u0080-￿])?`
of `_AGENT_NAME_RE` (`core/types.py`), i.e. the language the expression
accepts at an exact end of input. -/
def agentNameReCore : Str → Bool
  | [] => false
  | [c] => inNameClass c
  | c :: rest => inNameClass c && tailMatch rest

/-- Embedding of `_AGENT_NAME_RE.match` as a whole.  CPython's `$`
anchor (without `re.MULTILINE`) matches at the end of the string or just
before one trailing newline, so the expression accepts a string exactly
when its core matches the string itself or the string minus a single
trailing newline. -/
def agentNameReMatch (s : Str) : Bool :=
  agentNameReCore s ||
    (decide (s.getLast? = some 10) && agentNameReCore s.dropLast)

/-- Embedding of `parse_agent_uri` (`core/types.py`): require the
`agent://` prefix, lowercase the remainder, then check length, hyphen
edges, and the name regular expression. -/
def parse_agent_uri (uri : Str) : Option Str :=
  if startsWithPy (pys "agent://") uri then
    let name := pyLower (uri.drop 8)
    if name.length < 2 || 50 < name.length then none
    else if startsDash name || endsDash name then none
    else if agentNameReMatch name then some name
    else none
  else none

/-- Embedding of `is_valid_agent_uri` (`core/types.py`). -/
def is_valid_agent_uri (uri : Str) : Bool := (parse_agent_uri uri).isSome

/-- Embedding of `validate_agent_name` (`core/types.py`): length and
hyphen-edge checks on the given string, the regular expression on its
lowercased form. -/
def validate_agent_name (name : Str) : Bool :=
  if name.length < 2 || 50 < name.length then false
  else if startsDash name || endsDash name then false
  else agentNameReMatch (pyLower name)

/-- JSON values, the payloads the directory service returns (`resp.json()`
in `dns/resolver.py`).  Numbers are restricted to integers, the only kind
the resolver's arithmetic meets in this development. -/
inductive Json : Type where
  | null : Json
  | bool (b : Bool) : Json
  | int (n : Int) : Json
  | str (s : Str) : Json
  | arr (xs : List Json) : Json
  | obj (fields : List (Str × Json)) : Json

/-- Python truthiness of a JSON value (`bool(x)`). -/
def Json.truthy : Json → Bool
  | .null => false
  | .bool b => b
  | .int n => decide (n ≠ 0)
  | .str s => decide (s ≠ [])
  | .arr xs => !xs.isEmpty
  | .obj kvs => !kvs.isEmpty

/-- Embedding of Python `x or y` on JSON values. -/
def pyOr (a b : Json) : Json := if a.truthy then a else b

/-- Embedding of `d.get(k, default)` on a JSON object's field list. -/
def jget (kvs : List (Str × Json)) (k : Str) (d : Json) : Json :=
  match alookup kvs k with
  | some v => v
  | none => d

/-- Embedding of Python `x + y` where `x` is a number and `y` an arbitrary
value: integers and booleans add (bool is an int subtype), anything else
raises `TypeError`. -/
def pyNum : Json → Option Int
  | .int n => some n
  | .bool b => some (if b then 1 else 0)
  | _ => none

/-- Embedding of `DNSErrorCode` (`dns/resolver.py`). -/
inductive DNSErrorCode : Type where
  | NOT_FOUND
  | INVALID_NAME
  | TIMEOUT
  | SERVER_ERROR
  | NETWORK_ERROR
deriving DecidableEq

/-- The `.value` string of a `DNSErrorCode` member. -/
def DNSErrorCode.value : DNSErrorCode → Str
  | .NOT_FOUND => pys "NOT_FOUND"
  | .INVALID_NAME => pys "INVALID_NAME"
  | .TIMEOUT => pys "TIMEOUT"
  | .SERVER_ERROR => pys "SERVER_ERROR"
  | .NETWORK_ERROR => pys "NETWORK_ERROR"

/-- Embedding of `str(DNSError(code, message))`, built by `DNSError.__init__` as
`[{code.value}] {message}`. -/
def dnsErrorStr (code : DNSErrorCode) (msg : Str) : Str :=
  pys "[" ++ code.value ++ pys "] " ++ msg

/-- Embedding of `AgentTool` (`dns/resolver.py`).  Fields hold whatever JSON value the
service supplied, as Python's dynamic typing does. -/
structure AgentTool : Type where
  name : Json
  description : Json
  input_schema : Json
  output_schema : Json

/-- Embedding of `ResolvedAgent` (`dns/resolver.py`).  `resolved_at` is the clock
reading at construction. -/
structure ResolvedAgent : Type where
  name : Str
  endpoint : Json
  public_key : Json
  tools : List AgentTool
  capabilities : Json
  ttl : Json
  resolved_at : Int
  metadata : List (Str × Json)

/-- Embedding of `_CacheEntry` (`dns/resolver.py`). -/
structure CacheEntry : Type where
  agent : ResolvedAgent
  expires_at : Int

/-- The resolver's `_cache` dictionary. -/
abbrev Cache : Type := List (Str × CacheEntry)

/-- Embedding of `DNSResolverConfig` (`dns/resolver.py`), with its field defaults. -/
structure DNSResolverConfig : Type where
  server : Str := pys "185.204.169.26"
  timeout_ms : Int := 10000
  default_ttl_seconds : Int := 300
  use_https : Bool := false
  port : Int := 3000

/-- Outcome of the HTTP GET the resolver performs: a timeout, a transport
connect failure, or a response with a status code and a body (`none` when
the body is not valid JSON, so that `resp.json()` raises). -/
inductive NetResult : Type where
  | timeout
  | connectError (msg : Str)
  | response (status : Nat) (body : Option Json)

/-- Outcome of one `resolve` call: a value, a raised `DNSError`, or a
raised exception of any other type escaping `resolve` untyped. -/
inductive ResolveOutcome : Type where
  | ok (agent : ResolvedAgent)
  | dnsError (code : DNSErrorCode) (msg : Str)
  | pyError (msg : Str)

/-- The top-level keys `ResolvedAgent` parsing consumes; every other key
of the payload lands in `metadata` (`dns/resolver.py`). -/
def consumedKeys : List Str :=
  [pys "name", pys "endpoint", pys "publicKey", pys "public_key",
   pys "tools", pys "capabilities", pys "ttl"]

/-- One step of the `tools` list comprehension in `resolve`: `t.get(...)`
succeeds on a dict and raises `AttributeError` on anything else. -/
def parseToolItem : Json → Except Str AgentTool
  | .obj kvs =>
      .ok { name := jget kvs (pys "name") (.str [])
            description := jget kvs (pys "description") (.str [])
            input_schema := pyOr (jget kvs (pys "inputSchema") .null)
              (jget kvs (pys "input_schema") .null)
            output_schema := pyOr (jget kvs (pys "outputSchema") .null)
              (jget kvs (pys "output_schema") .null) }
  | _ => .error (pys "AttributeError: object has no attribute get")

/-- Embedding of `for t in tools_raw`: an array yields its elements, a
string its one-character substrings, a dict its keys (as strings), and a
non-iterable raises `TypeError`. -/
def iterItems : Json → Except Str (List Json)
  | .arr xs => .ok xs
  | .str s => .ok (s.map fun c => .str [c])
  | .obj kvs => .ok (kvs.map fun p => .str p.1)
  | _ => .error (pys "TypeError: object is not iterable")

/-- The response-parsing section of `DNSResolver.resolve` (after the
`try` block): `data.get("agent", data)`, the tool list comprehension, and
the `ResolvedAgent` construction.  `.get` on a non-dict raises
`AttributeError`, which this section does not catch. -/
def parsePayload (cfg : DNSResolverConfig) (now : Int) (name : Str)
    (data : Json) : Except Str ResolvedAgent :=
  match data with
  | .obj kvs =>
      match jget kvs (pys "agent") (.obj kvs) with
      | .obj akvs =>
          match iterItems (jget akvs (pys "tools") (.arr [])) with
          | .error m => .error m
          | .ok items =>
              match items.mapM parseToolItem with
              | .error m => .error m
              | .ok tools =>
                  .ok { name := name
                        endpoint := jget akvs (pys "endpoint") (.str [])
                        public_key := jget akvs (pys "publicKey")
                          (jget akvs (pys "public_key") (.str []))
                        tools := tools
                        capabilities := jget akvs (pys "capabilities") (.arr [])
                        ttl := jget akvs (pys "ttl") (.int cfg.default_ttl_seconds)
                        resolved_at := now
                        metadata := akvs.filter fun p => !(consumedKeys.contains p.1) }
      | _ => .error (pys "AttributeError: object has no attribute get")
  | _ => .error (pys "AttributeError: object has no attribute get")

/-- Render a status code into the `DNS server error: {status}` message. -/
def natStr (n : Nat) : Str := pys (toString n)

/-- The name-argument normalization at the head of `DNSResolver.resolve`:
an `agent://` target goes through `parse_agent_uri`, then the (possibly
parsed) name goes through `validate_agent_name`; either failure raises
`DNSError(INVALID_NAME, ...)`. -/
def DNSResolver.resolveName (target : Str) : Except Str Str :=
  if startsWithPy (pys "agent://") target then
    match parse_agent_uri target with
    | none => .error (pys "Invalid URI: " ++ target)
    | some parsed =>
        if validate_agent_name parsed then .ok parsed
        else .error (pys "Invalid agent name: " ++ parsed)
  else
    if validate_agent_name target then .ok target
    else .error (pys "Invalid agent name: " ++ target)

/-- The network section of `DNSResolver.resolve`: perform the HTTP GET,
map the outcome through the error taxonomy, parse the payload, and store
the cache entry with `expires_at = now + ttl`.  Every outcome also
reports that one service call was made (the `Bool` component). -/
def DNSResolver.resolveRemote (cfg : DNSResolverConfig) (cache : Cache)
    (now : Int) (net : Str → NetResult) (name : Str) :
    ResolveOutcome × Cache × Bool :=
  match net name with
  | .timeout => (.dnsError .TIMEOUT (pys "DNS lookup timed out for " ++ name), cache, true)
  | .connectError m =>
      (.dnsError .NETWORK_ERROR (pys "Cannot reach DNS server: " ++ m), cache, true)
  | .response status body =>
      if status = 404 then
        (.dnsError .NOT_FOUND (pys "Agent not found: " ++ name), cache, true)
      else if status ≠ 200 then
        (.dnsError .SERVER_ERROR (pys "DNS server error: " ++ natStr status), cache, true)
      else
        match body with
        | none =>
            (.dnsError .SERVER_ERROR (pys "Unexpected error: invalid JSON"), cache, true)
        | some data =>
            match parsePayload cfg now name data with
            | .error m => (.pyError m, cache, true)
            | .ok agent =>
                match pyNum agent.ttl with
                | none =>
                    (.pyError (pys "TypeError: unsupported operand types for +"), cache, true)
                | some t =>
                    (.ok agent, aset cache name { agent := agent, expires_at := now + t }, true)

/-- Embedding of `DNSResolver.resolve` (`dns/resolver.py`): normalize the
target, consult the cache (`expires_at > now` is a hit), otherwise call
the directory service.  Returns the outcome, the resulting cache, and
whether a service call was made. -/
def DNSResolver.resolve (cfg : DNSResolverConfig) (cache : Cache) (now : Int)
    (net : Str → NetResult) (target : Str) : ResolveOutcome × Cache × Bool :=
  match DNSResolver.resolveName target with
  | .error m => (.dnsError .INVALID_NAME m, cache, false)
  | .ok name =>
      match alookup cache name with
      | some entry =>
          if now < entry.expires_at then (.ok entry.agent, cache, false)
          else DNSResolver.resolveRemote cfg cache now net name
      | none => DNSResolver.resolveRemote cfg cache now net name

/-- Embedding of `ToolDefinition` (`tools/registry.py`), with its field defaults. -/
structure ToolDefinition : Type where
  name : Str
  description : Str := []
  input_schema : Option Json := none
  output_schema : Option Json := none

/-- Embedding of `ToolContext` (`tools/registry.py`). -/
structure ToolContext : Type where
  session_id : Str
  agent_name : Str
  metadata : List (Str × Json) := []

/-- Embedding of `ToolInvokeResult` (`tools/registry.py`): `result` defaults to
Python `None`, `error` to absent. -/
structure ToolInvokeResult : Type where
  success : Bool
  result : Json := .null
  error : Option Str := none

/-- Outcome of `await handler(**params)`: a returned value, a raised
`TypeError` (parameter-binding mismatch or a `TypeError` from the handler
body — the source conflates the two), or any other raised exception. -/
inductive HandlerOutcome : Type where
  | ok (v : Json)
  | typeError (msg : Str)
  | failure (msg : Str)

/-- A tool handler: a callable from keyword arguments to a completed
value or a raised exception. -/
def ToolHandler : Type := List (Str × Json) → HandlerOutcome

/-- The registry's `_tools` dictionary, name to (definition, handler). -/
def ToolRegistry : Type := List (Str × ToolDefinition × ToolHandler)

/-- Embedding of `ToolRegistry.register`: build the definition and
overwrite any prior entry under the same name. -/
def ToolRegistry.register (reg : ToolRegistry) (name : Str) (handler : ToolHandler)
    (description : Str := []) (input_schema : Option Json := none)
    (output_schema : Option Json := none) : ToolDefinition × ToolRegistry :=
  let defn : ToolDefinition :=
    { name := name, description := description,
      input_schema := input_schema, output_schema := output_schema }
  (defn, aset reg name (defn, handler))

/-- Embedding of `ToolRegistry.get`. -/
def ToolRegistry.get (reg : ToolRegistry) (name : Str) :
    Option (ToolDefinition × ToolHandler) :=
  alookup reg name

/-- Embedding of `ToolRegistry.invoke` (`tools/registry.py`): absent name,
completed handler, raised `TypeError`, and any other raised exception are
each normalized into a `ToolInvokeResult`; the registry itself is not
modified by an invocation. -/
def ToolRegistry.invoke (reg : ToolRegistry) (name : Str)
    (params : List (Str × Json)) (_ctx : ToolContext) : ToolInvokeResult :=
  match alookup reg name with
  | none => { success := false, error := some (pys "Tool not found: " ++ name) }
  | some (_, handler) =>
      match handler params with
      | .ok v => { success := true, result := v }
      | .typeError m => { success := false, error := some (pys "Invalid parameters: " ++ m) }
      | .failure m => { success := false, error := some (pys "Tool error: " ++ m) }

/-- Embedding of `MessageType` (`protocol/types.py`). -/
inductive MessageType : Type where
  | REQUEST
  | RESPONSE
  | EVENT
  | ERROR
deriving DecidableEq

/-- Embedding of `RequestFrame` (`protocol/types.py`).  The generated-id and clock
defaults are explicit arguments in this embedding. -/
structure RequestFrame : Type where
  type : MessageType := .REQUEST
  id : Str
  method : Str := []
  params : List (Str × Json) := []
  session_id : Option Str := none
  timestamp : Int

/-- Embedding of `ResponseFrame` (`protocol/types.py`). -/
structure ResponseFrame : Type where
  type : MessageType := .RESPONSE
  id : Str
  request_id : Str := []
  result : Json := .null
  session_id : Option Str := none
  timestamp : Int

/-- Embedding of `EventFrame` (`protocol/types.py`). -/
structure EventFrame : Type where
  type : MessageType := .EVENT
  id : Str
  event : Str := []
  data : Json := .null
  session_id : Option Str := none
  timestamp : Int

/-- Embedding of `ErrorFrame` (`protocol/types.py`).  `INTERNAL_ERROR = -32603` is the
default code. -/
structure ErrorFrame : Type where
  type : MessageType := .ERROR
  id : Str
  request_id : Str := []
  code : Int := -32603
  message : Str := []
  data : Json := .null
  session_id : Option Str := none
  timestamp : Int

/-- The dynamically-typed argument of `validate_frame`: one of the four
frame classes, or any other Python value (`other`). -/
inductive PyObj : Type where
  | request (f : RequestFrame)
  | response (f : ResponseFrame)
  | event (f : EventFrame)
  | error (f : ErrorFrame)
  | other

/-- Embedding of `validate_frame` (`protocol/types.py`): a non-frame is
invalid; every frame needs a non-empty `id`; a request a non-empty
`method`, a response and an error a non-empty `request_id`, an event a
non-empty `event`. -/
def validate_frame (frame : PyObj) : Bool :=
  match frame with
  | .other => false
  | .request f => if f.id = [] then false else if f.method = [] then false else true
  | .response f => if f.id = [] then false else if f.request_id = [] then false else true
  | .event f => if f.id = [] then false else if f.event = [] then false else true
  | .error f => if f.id = [] then false else if f.request_id = [] then false else true

/-- Embedding of `SessionState` (`core/types.py`). -/
inductive SessionState : Type where
  | INITIATING
  | HANDSHAKE
  | ACTIVE
  | SUSPENDED
  | RESUMING
  | CLOSING
  | CLOSED
  | ERROR
deriving DecidableEq

/-- Embedding of `AgentID` (`core/types.py`).  `public_key` holds whatever value was
supplied (the resolver hands it a JSON field). -/
structure AgentID : Type where
  name : Str
  public_key : Json
  description : Str := []

/-- Embedding of `Session` (`core/types.py`): the dataclass's `state` default is
`INITIATING`. -/
structure Session : Type where
  id : Str
  local_agent : AgentID
  remote_agent : AgentID
  state : SessionState := .INITIATING
  created_at : Int
  updated_at : Int
  metadata : List (Str × Json) := []

/-- Embedding of `ConnectResult` (`agent.py`). -/
structure ConnectResult : Type where
  success : Bool
  session : Option Session := none
  error : Option Str := none

/-- The fields of the `Agent` class (`agent.py`) that the session and
resolution operations touch: the agent's name and identity, the embedded
resolver's configuration and cache, the `_sessions` dictionary, and the
`_is_running` flag.  The key pair, handler tables, and DNS API key are
opaque to the modelled operations and are omitted. -/
structure AgentState : Type where
  name : Str
  identity : AgentID
  resolverConfig : DNSResolverConfig
  resolverCache : Cache
  sessions : List (Str × Session)
  running : Bool

/-- Embedding of `Agent.connect` (`agent.py`): resolve the target; on any
raised failure return a `ConnectResult` with the `DNS resolution failed:`
message; on success build a `Session` **in state `ACTIVE`** with a fresh
id and store it in `_sessions`.  `freshId` stands for `generate_id()` and
`now` for `time.time()`. -/
def Agent.connect (a : AgentState) (now : Int) (net : Str → NetResult)
    (freshId : Str) (target : Str) : ConnectResult × AgentState :=
  match DNSResolver.resolve a.resolverConfig a.resolverCache now net target with
  | (.ok resolved, c, _) =>
      let session : Session :=
        { id := freshId
          local_agent := a.identity
          remote_agent := { name := resolved.name, public_key := resolved.public_key }
          state := .ACTIVE
          created_at := now
          updated_at := now }
      ({ success := true, session := some session },
       { a with resolverCache := c, sessions := aset a.sessions freshId session })
  | (.dnsError code msg, c, _) =>
      ({ success := false,
         error := some (pys "DNS resolution failed: " ++ dnsErrorStr code msg) },
       { a with resolverCache := c })
  | (.pyError m, c, _) =>
      ({ success := false, error := some (pys "DNS resolution failed: " ++ m) },
       { a with resolverCache := c })

/-- Embedding of `Agent.stop` (`agent.py`): a no-op when not running;
otherwise set every stored session's state to `CLOSED`, clear the
`_sessions` dictionary, and clear the running flag.  The second component
is the list of session objects as callers holding references observe them
after the in-place mutation. -/
def Agent.stop (a : AgentState) : AgentState × List Session :=
  if a.running then
    ({ a with sessions := [], running := false },
     a.sessions.map fun p => { p.2 with state := SessionState.CLOSED })
  else (a, [])

/-- Modelled from the spec: the session state machine of §4.4, which the
source does not implement (no transition-validation function exists under
`src/`; `agent.py` only assigns states directly).  Valid transitions:
INITIATING→HANDSHAKE→ACTIVE, ACTIVE→SUSPENDED, SUSPENDED→RESUMING→ACTIVE,
ACTIVE→CLOSING→CLOSED, and any of {INITIATING, HANDSHAKE, ACTIVE,
SUSPENDED, RESUMING}→ERROR. -/
def spec_valid_transition : SessionState → SessionState → Bool
  | .INITIATING, .HANDSHAKE => true
  | .HANDSHAKE, .ACTIVE => true
  | .ACTIVE, .SUSPENDED => true
  | .SUSPENDED, .RESUMING => true
  | .RESUMING, .ACTIVE => true
  | .ACTIVE, .CLOSING => true
  | .CLOSING, .CLOSED => true
  | .INITIATING, .ERROR => true
  | .HANDSHAKE, .ERROR => true
  | .ACTIVE, .ERROR => true
  | .SUSPENDED, .ERROR => true
  | .RESUMING, .ERROR => true
  | _, _ => false

/-- Outcome of an attempted session transition in the spec-modelled state
machine. -/
inductive TransitionOutcome : Type where
  | ok (s : Session)
  | invalidTransition (source target : SessionState)

/-- Modelled from the spec: attempting a transition applies it and
updates `updated_at` when it is listed in §4.4, and signals an
invalid-state-transition condition otherwise. -/
def spec_transition (s : Session) (target : SessionState) (now : Int) :
    TransitionOutcome :=
  if spec_valid_transition s.state target then
    .ok { s with state := target, updated_at := now }
  else .invalidTransition s.state target

/-- Project the error code out of a resolution outcome. -/
def outcomeCode : ResolveOutcome → Option DNSErrorCode
  | .dnsError c _ => some c
  | _ => none

/-- Concrete handler used by the witnesses: `add(a, b) -> a + b`, raising
`TypeError` when the keyword arguments do not bind. -/
def exAddHandler : ToolHandler := fun ps =>
  match alookup ps (pys "a"), alookup ps (pys "b") with
  | some (.int x), some (.int y) => .ok (.int (x + y))
  | _, _ => .typeError (pys "missing required argument")

/-- Concrete handler used by the witnesses: always fails with "boom". -/
def exBoomHandler : ToolHandler := fun _ => .failure (pys "boom")

/-- Concrete registry holding the two witness handlers. -/
def exRegistry : ToolRegistry :=
  (ToolRegistry.register
    (ToolRegistry.register [] (pys "add") exAddHandler).2
    (pys "boom") exBoomHandler).2

/-- Concrete invocation context used by the witnesses. -/
def exCtx : ToolContext := { session_id := [], agent_name := pys "local" }

/-- Concrete identity used by the witness agents. -/
def exIdentity : AgentID := { name := pys "local", public_key := .str [] }

/-- Build a witness session in a given state. -/
def exSession (i : Str) (st : SessionState) : Session :=
  { id := i, local_agent := exIdentity, remote_agent := exIdentity,
    state := st, created_at := 0, updated_at := 0 }

/-- Concrete payload the witness directory service returns. -/
def exPayload : Json :=
  .obj [(pys "endpoint", .str (pys "http://peer")), (pys "publicKey", .str (pys "pk"))]

/-- Witness network: every lookup answers 200 with `exPayload`. -/
def exNet : Str → NetResult := fun _ => .response 200 (some exPayload)

/-- Witness resolver configuration (all defaults; TTL 300). -/
def exCfg : DNSResolverConfig := {}

/-- Witness agent holding two live sessions, one of them in a state from
which no transition to CLOSED is valid. -/
def exAgentRunning : AgentState :=
  { name := pys "local", identity := exIdentity, resolverConfig := exCfg,
    resolverCache := [],
    sessions := [(pys "s1", exSession (pys "s1") .ERROR),
                 (pys "s2", exSession (pys "s2") .ACTIVE)],
    running := true }

/-- Witness agent with no sessions, running, empty resolver cache. -/
def exAgentIdle : AgentState :=
  { name := pys "local", identity := exIdentity, resolverConfig := exCfg,
    resolverCache := [], sessions := [], running := true }

/-- The validity predicate exactly as claim C8 states it, with the
character class unbounded above (any code point at least U+0080), for
comparison with the source's `validate_agent_name`. -/
def claimed_valid_name (s : Str) : Bool :=
  (decide (2 ≤ (pyLower s).length) && decide ((pyLower s).length ≤ 50)) &&
  (!startsDash (pyLower s) && !endsDash (pyLower s)) &&
  (pyLower s).all fun c =>
    ((97 ≤ c && c ≤ 122) || (48 ≤ c && c ≤ 57)) || (decide (c = 45) || 128 ≤ c)

/-- Core validity of a lowercased name as claim C8's amendment states
it: non-empty, every character a lowercase ASCII alphanumeric, a hyphen,
or a code point in U+0080 through U+FFFF, with no hyphen at either end.
Stated from the amended claim's words, for comparison with the matcher
translated from the source. -/
def amendedNameCore (v : Str) : Prop :=
  v ≠ [] ∧
  (∀ c ∈ v, ((97 ≤ c ∧ c ≤ 122) ∨ (48 ≤ c ∧ c ≤ 57)) ∨ c = 45 ∨ (128 ≤ c ∧ c ≤ 65535)) ∧
  (∀ c, v.head? = some c → c ≠ 45) ∧
  (∀ c, v.getLast? = some c → c ≠ 45)

/-- The endpoint record that parsing `exPayload` for the name `bob` at
time 0 produces (TTL defaulted to 300 by the configuration). -/
def exAgentBob : ResolvedAgent :=
  { name := pys "bob", endpoint := .str (pys "http://peer"),
    public_key := .str (pys "pk"), tools := [], capabilities := .arr [],
    ttl := .int 300, resolved_at := 0, metadata := [] }

/-- Witness network whose 200 response body is the JSON array `[]`. -/
def exNetArr : Str → NetResult := fun _ => .response 200 (some (.arr []))

/-- Witness network whose 200 response body is not valid JSON. -/
def exNetBadJson : Str → NetResult := fun _ => .response 200 none

/- ------------------------------------------------------------------ -/
/- Theorems.                                                          -/
/- ------------------------------------------------------------------ -/

/-- Claim C9: `validate_frame` returns true for a value exactly when it
is one of the four frame variants with a non-empty id and, per variant, a
non-empty method (request), request_id (response, error), or event name
(event); it returns false for a non-frame value and for a request frame
with an empty method. -/
theorem c9_validate_frame_iff :
    (∀ obj : PyObj, validate_frame obj = true ↔
      ((∃ f, obj = .request f ∧ f.id ≠ [] ∧ f.method ≠ []) ∨
       (∃ f, obj = .response f ∧ f.id ≠ [] ∧ f.request_id ≠ []) ∨
       (∃ f, obj = .event f ∧ f.id ≠ [] ∧ f.event ≠ []) ∨
       (∃ f, obj = .error f ∧ f.id ≠ [] ∧ f.request_id ≠ [])))
    ∧ validate_frame PyObj.other = false
    ∧ (∀ f : RequestFrame, f.method = [] → validate_frame (.request f) = false) := by
  refine ⟨?_, rfl, ?_⟩
  · intro obj
    cases obj <;> simp [validate_frame]
  · intro f h
    simp [validate_frame, h]

/-- Witness for C9 at concrete frames: a well-formed request validates, a
request with an empty method and a non-frame value do not. -/
theorem c9_validate_frame_iff_witness :
    validate_frame (.request { id := pys "r1", method := [], timestamp := 0 }) = false ∧
    validate_frame PyObj.other = false ∧
    validate_frame (.request { id := pys "r1", method := pys "ping", timestamp := 0 }) = true := by
  refine ⟨c9_validate_frame_iff.2.2 _ rfl, c9_validate_frame_iff.2.1, ?_⟩
  exact (c9_validate_frame_iff.1 _).mpr (Or.inl ⟨_, rfl, by decide, by decide⟩)

/-- Claim C1: registry invocation is a total function into
`ToolInvokeResult`: an unregistered name yields `success = false` with an
error mentioning the tool was not found, a completed handler yields
`success = true` with its value, and a raised handler failure (of either
kind the source distinguishes) yields `success = false` carrying the
failure message — no failure propagates, and the registry value itself is
left untouched by invocation (the operation reads `reg` and returns only
a result), so subsequent calls see the same registry. -/
theorem c1_invoke_total (reg : ToolRegistry) (name : Str)
    (params : List (Str × Json)) (ctx : ToolContext) :
    (alookup reg name = none →
      ToolRegistry.invoke reg name params ctx =
        { success := false, result := .null, error := some (pys "Tool not found: " ++ name) } ∧
      ∃ s t, s ++ pys "not found" ++ t = pys "Tool not found: " ++ name)
    ∧ (∀ d h v, alookup reg name = some (d, h) → h params = .ok v →
        ToolRegistry.invoke reg name params ctx = { success := true, result := v, error := none })
    ∧ (∀ d h m, alookup reg name = some (d, h) → h params = .typeError m →
        ToolRegistry.invoke reg name params ctx =
          { success := false, result := .null,
            error := some (pys "Invalid parameters: " ++ m) })
    ∧ (∀ d h m, alookup reg name = some (d, h) → h params = .failure m →
        ToolRegistry.invoke reg name params ctx =
          { success := false, result := .null, error := some (pys "Tool error: " ++ m) }) := by
  refine ⟨?_, ?_, ?_, ?_⟩
  · intro h
    refine ⟨by simp [ToolRegistry.invoke, h], pys "Tool ", pys ": " ++ name, ?_⟩
    rw [← List.append_assoc]
    rfl
  · intro d h v hl hv
    simp [ToolRegistry.invoke, hl, hv]
  · intro d h m hl hm
    simp [ToolRegistry.invoke, hl, hm]
  · intro d h m hl hm
    simp [ToolRegistry.invoke, hl, hm]

/-- Witness for C1 on a concrete registry: a missing tool reports
not-found, `add(a=3, b=4)` completes with 7, and the failing handler's
message is carried in the result — and the same registry value keeps
serving calls after the failure. -/
theorem c1_invoke_total_witness :
    (ToolRegistry.invoke exRegistry (pys "missing") [] exCtx).success = false ∧
    ToolRegistry.invoke exRegistry (pys "add")
        [(pys "a", Json.int 3), (pys "b", Json.int 4)] exCtx =
      { success := true, result := Json.int 7, error := none } ∧
    (ToolRegistry.invoke exRegistry (pys "boom") [] exCtx).error =
      some (pys "Tool error: boom") ∧
    ToolRegistry.invoke exRegistry (pys "add")
        [(pys "a", Json.int 1), (pys "b", Json.int 1)] exCtx =
      { success := true, result := Json.int 2, error := none } := by
  refine ⟨?_, ?_, ?_, ?_⟩
  · rw [((c1_invoke_total exRegistry (pys "missing") [] exCtx).1 rfl).1]
  · exact (c1_invoke_total exRegistry (pys "add")
      [(pys "a", Json.int 3), (pys "b", Json.int 4)] exCtx).2.1
      { name := pys "add" } exAddHandler (Json.int 7) rfl rfl
  · rw [(c1_invoke_total exRegistry (pys "boom") [] exCtx).2.2.2
      { name := pys "boom" } exBoomHandler (pys "boom") rfl rfl]
    rfl
  · exact (c1_invoke_total exRegistry (pys "add")
      [(pys "a", Json.int 1), (pys "b", Json.int 1)] exCtx).2.1
      { name := pys "add" } exAddHandler (Json.int 2) rfl rfl

lemma alookup_aset_self {β : Type} (m : List (Str × β)) (k : Str) (v : β) :
    alookup (aset m k v) k = some v := by
  induction m with
  | nil => simp [aset, alookup]
  | cons p rest ih =>
      by_cases h : p.1 = k
      · simp [aset, alookup, h]
      · simpa [aset, alookup, h] using ih


/-- Claim C6: stopping a running agent forces every live session's state
to CLOSED and empties the session store; no per-session transition
validation is consulted — the bulk path is the plain map-to-CLOSED of the
stored sessions, so it also closes sessions (such as one in ERROR) whose
transition to CLOSED the spec-modelled state machine rejects. -/
theorem c6_stop_closes_all (a : AgentState) (h : a.running = true) :
    (Agent.stop a).1.sessions = [] ∧
    (Agent.stop a).1.running = false ∧
    (Agent.stop a).2 = a.sessions.map (fun p => { p.2 with state := SessionState.CLOSED }) ∧
    (∀ s, s ∈ (Agent.stop a).2 → s.state = SessionState.CLOSED) ∧
    (∀ p, p ∈ a.sessions → spec_valid_transition p.2.state SessionState.CLOSED = false →
      { p.2 with state := SessionState.CLOSED } ∈ (Agent.stop a).2) := by
  refine ⟨by simp [Agent.stop, h], by simp [Agent.stop, h], by simp [Agent.stop, h], ?_, ?_⟩
  · intro s hs
    simp only [Agent.stop, h, if_true] at hs
    simp only [List.mem_map] at hs
    obtain ⟨p, _, rfl⟩ := hs
    rfl
  · intro p hp _
    simp only [Agent.stop, h, if_true]
    exact List.mem_map_of_mem _ hp

/-- Witness for C6: stopping the concrete running agent empties the
store and leaves both held sessions CLOSED, including the one that was in
ERROR, from which the spec state machine allows no transition. -/
theorem c6_stop_closes_all_witness :
    exAgentRunning.running = true ∧
    (Agent.stop exAgentRunning).1.sessions = [] ∧
    (Agent.stop exAgentRunning).2.map Session.state =
      [SessionState.CLOSED, SessionState.CLOSED] ∧
    spec_valid_transition SessionState.ERROR SessionState.CLOSED = false := by
  refine ⟨rfl, (c6_stop_closes_all exAgentRunning rfl).1, ?_, rfl⟩
  rw [(c6_stop_closes_all exAgentRunning rfl).2.2.1]
  rfl

/-- Counterexample to claim C5: the only path in the source by which a
session enters the store — `Agent.connect` — creates it directly in state
ACTIVE, not INITIATING. -/
theorem c5_counterexample :
    ((Agent.connect exAgentIdle 0 exNet (pys "sid") (pys "bob")).2.sessions.map
        (fun p => p.2.state)) = [SessionState.ACTIVE] ∧
    SessionState.ACTIVE ≠ SessionState.INITIATING := by
  exact ⟨rfl, by decide⟩

/-- Claim C5 as amended: a `Session` constructed with the dataclass's
defaults starts in INITIATING, but a session entering the store via
`connect` is created directly in state ACTIVE; in the spec-modelled state
machine (absent from the source) an unlisted transition such as
CLOSED→ACTIVE signals an invalid-state-transition condition instead of
being absorbed. -/
theorem c5_session_states :
    (∀ (i : Str) (l r : AgentID) (c u : Int),
      ({ id := i, local_agent := l, remote_agent := r,
         created_at := c, updated_at := u } : Session).state = SessionState.INITIATING)
    ∧ (∀ a now net fid target res a', Agent.connect a now net fid target = (res, a') →
        res.success = true →
        ∃ s, res.session = some s ∧ s.state = SessionState.ACTIVE ∧
          alookup a'.sessions fid = some s)
    ∧ (∀ (s : Session) (now : Int), s.state = SessionState.CLOSED →
        spec_transition s SessionState.ACTIVE now =
          .invalidTransition SessionState.CLOSED SessionState.ACTIVE) := by
  refine ⟨fun _ _ _ _ _ => rfl, ?_, ?_⟩
  · intro a now net fid target res a' hc hs
    rcases hr : DNSResolver.resolve a.resolverConfig a.resolverCache now net target
      with ⟨out, c, b⟩
    cases out with
    | ok resolved =>
        simp only [Agent.connect, hr] at hc
        rw [Prod.mk.injEq] at hc
        obtain ⟨hres, ha⟩ := hc
        subst hres
        subst ha
        exact ⟨_, rfl, rfl, alookup_aset_self ..⟩
    | dnsError code msg =>
        simp only [Agent.connect, hr] at hc
        rw [Prod.mk.injEq] at hc
        rw [← hc.1] at hs
        simp at hs
    | pyError m =>
        simp only [Agent.connect, hr] at hc
        rw [Prod.mk.injEq] at hc
        rw [← hc.1] at hs
        simp at hs
  · intro s now h
    simp [spec_transition, spec_valid_transition, h]

/-- Witness for C5 (amended) at the concrete connect: the stored session
is ACTIVE, and a CLOSED session rejects the ACTIVE transition. -/
theorem c5_session_states_witness :
    ((Agent.connect exAgentIdle 0 exNet (pys "sid") (pys "bob")).1.session.map
        Session.state) = some SessionState.ACTIVE ∧
    spec_transition (exSession (pys "sc") .CLOSED) SessionState.ACTIVE 7 =
      .invalidTransition SessionState.CLOSED SessionState.ACTIVE := by
  constructor
  · obtain ⟨s, h1, h2, h3⟩ := c5_session_states.2.1 exAgentIdle 0 exNet (pys "sid")
      (pys "bob") (Agent.connect exAgentIdle 0 exNet (pys "sid") (pys "bob")).1
      (Agent.connect exAgentIdle 0 exNet (pys "sid") (pys "bob")).2 rfl rfl
    rw [h1]
    simp [h2]
  · exact c5_session_states.2.2 (exSession (pys "sc") .CLOSED) 7 rfl

lemma pyLowerChar_idem (c : Nat) : pyLowerChar (pyLowerChar c) = pyLowerChar c := by
  unfold pyLowerChar
  split_ifs <;> omega

lemma pyLower_idem (s : Str) : pyLower (pyLower s) = pyLower s := by
  induction s with
  | nil => rfl
  | cons c cs ih =>
      simp only [pyLower, List.map_cons, pyLowerChar_idem] at ih ⊢
      rw [show List.map pyLowerChar (List.map pyLowerChar cs) =
        List.map pyLowerChar cs from ih]

lemma inNameClassH_of_inNameClass {c : Nat} (h : inNameClass c = true) :
    inNameClassH c = true := by
  simp [inNameClassH, h]

lemma startsDash_false_iff (l : Str) :
    startsDash l = false ↔ ∀ c, l.head? = some c → c ≠ 45 := by
  cases l <;> simp [startsDash]

lemma endsDash_false_iff (l : Str) :
    endsDash l = false ↔ ∀ c, l.getLast? = some c → c ≠ 45 := by
  rw [endsDash, startsDash_false_iff]
  simp [List.head?_reverse]

lemma tailMatch_iff (l : Str) :
    tailMatch l = true ↔
      (l ≠ [] ∧ (∀ c ∈ l, inNameClassH c = true) ∧
       ∀ c, l.getLast? = some c → inNameClass c = true) := by
  induction l with
  | nil => simp [tailMatch]
  | cons a rest ih =>
      cases rest with
      | nil =>
          rw [show tailMatch [a] = inNameClass a from rfl]
          constructor
          · intro h
            refine ⟨by simp, ?_, ?_⟩
            · intro c hc
              rw [List.mem_singleton] at hc
              subst hc
              exact inNameClassH_of_inNameClass h
            · intro c hc
              rw [List.getLast?_singleton, Option.some.injEq] at hc
              subst hc
              exact h
          · rintro ⟨-, -, h⟩
            exact h a (by rw [List.getLast?_singleton])
      | cons b rest2 =>
          rw [show tailMatch (a :: b :: rest2) = (inNameClassH a && tailMatch (b :: rest2))
            from rfl]
          rw [Bool.and_eq_true, ih]
          simp only [ne_eq, reduceCtorEq, not_false_eq_true, true_and, List.mem_cons,
            List.getLast?_cons_cons]
          constructor
          · rintro ⟨h1, h2, h3⟩
            exact ⟨fun c hc => by rcases hc with rfl | hc; exact h1; exact h2 c hc, h3⟩
          · rintro ⟨h1, h2⟩
            exact ⟨h1 a (Or.inl rfl), fun c hc => h1 c (Or.inr hc), h2⟩

lemma inNameClass_eq_classH_ne (c : Nat) :
    inNameClass c = true ↔ (inNameClassH c = true ∧ c ≠ 45) := by
  simp only [inNameClass, inNameClassH, Bool.or_eq_true, Bool.and_eq_true,
    decide_eq_true_eq]
  omega

lemma inNameClassH_arith (c : Nat) :
    inNameClassH c = true ↔
      (((97 ≤ c ∧ c ≤ 122) ∨ (48 ≤ c ∧ c ≤ 57)) ∨ c = 45 ∨ (128 ≤ c ∧ c ≤ 65535)) := by
  simp only [inNameClassH, inNameClass, Bool.or_eq_true, Bool.and_eq_true,
    decide_eq_true_eq]
  omega

lemma agentNameReCore_iff (v : Str) :
    agentNameReCore v = true ↔
      (v ≠ [] ∧ (∀ c ∈ v, inNameClassH c = true) ∧
       (∀ c, v.head? = some c → c ≠ 45) ∧
       (∀ c, v.getLast? = some c → c ≠ 45)) := by
  cases v with
  | nil => simp [agentNameReCore]
  | cons a rest =>
      cases rest with
      | nil =>
          rw [show agentNameReCore [a] = inNameClass a from rfl, inNameClass_eq_classH_ne]
          constructor
          · rintro ⟨h1, h2⟩
            refine ⟨by simp, ?_, ?_, ?_⟩
            · intro c hc
              rw [List.mem_singleton] at hc
              subst hc
              exact h1
            · intro c hc
              rw [List.head?_cons, Option.some.injEq] at hc
              subst hc
              exact h2
            · intro c hc
              rw [List.getLast?_singleton, Option.some.injEq] at hc
              subst hc
              exact h2
          · rintro ⟨-, h2, h3, -⟩
            exact ⟨h2 a (List.mem_singleton.mpr rfl), h3 a rfl⟩
      | cons b rest2 =>
          rw [show agentNameReCore (a :: b :: rest2) =
            (inNameClass a && tailMatch (b :: rest2)) from rfl]
          rw [Bool.and_eq_true, tailMatch_iff, inNameClass_eq_classH_ne]
          constructor
          · rintro ⟨⟨ha, ha45⟩, -, hall, hlast⟩
            refine ⟨by simp, ?_, ?_, ?_⟩
            · intro c hc
              rcases List.mem_cons.mp hc with rfl | hc
              · exact ha
              · exact hall c hc
            · intro c hc
              rw [List.head?_cons, Option.some.injEq] at hc
              subst hc
              exact ha45
            · intro c hc
              rw [List.getLast?_cons_cons] at hc
              exact ((inNameClass_eq_classH_ne c).mp (hlast c hc)).2
          · rintro ⟨-, hall, hhead, hlast⟩
            refine ⟨⟨hall a (List.mem_cons_self ..), hhead a rfl⟩, by simp, ?_, ?_⟩
            · intro c hc
              exact hall c (List.mem_cons_of_mem _ hc)
            · intro c hc
              refine (inNameClass_eq_classH_ne c).mpr
                ⟨hall c (List.mem_cons_of_mem _ (List.mem_of_getLast?_eq_some hc)),
                 hlast c (by rw [List.getLast?_cons_cons]; exact hc)⟩

lemma amendedNameCore_iff (v : Str) :
    amendedNameCore v ↔
      (v ≠ [] ∧ (∀ c ∈ v, inNameClassH c = true) ∧
       (∀ c, v.head? = some c → c ≠ 45) ∧
       (∀ c, v.getLast? = some c → c ≠ 45)) := by
  unfold amendedNameCore
  constructor
  · rintro ⟨h1, h2, h3, h4⟩
    exact ⟨h1, fun c hc => (inNameClassH_arith c).mpr (h2 c hc), h3, h4⟩
  · rintro ⟨h1, h2, h3, h4⟩
    exact ⟨h1, fun c hc => (inNameClassH_arith c).mp (h2 c hc), h3, h4⟩

lemma agentNameReMatch_iff_amended (v : Str) :
    agentNameReMatch v = true ↔
      (amendedNameCore v ∨ (v.getLast? = some 10 ∧ amendedNameCore v.dropLast)) := by
  unfold agentNameReMatch
  rw [Bool.or_eq_true, Bool.and_eq_true, decide_eq_true_eq,
    agentNameReCore_iff, agentNameReCore_iff, amendedNameCore_iff, amendedNameCore_iff]

lemma validate_agent_name_iff (n : Str) :
    validate_agent_name n = true ↔
      (2 ≤ n.length ∧ n.length ≤ 50 ∧ startsDash n = false ∧ endsDash n = false ∧
       agentNameReMatch (pyLower n) = true) := by
  unfold validate_agent_name
  split_ifs with h1 h2
  · simp only [Bool.or_eq_true, decide_eq_true_eq] at h1
    simp only [Bool.false_eq_true, false_iff]
    rintro ⟨ha, hb, -⟩
    rcases h1 with h | h <;> omega
  · simp only [Bool.or_eq_true] at h2
    simp only [Bool.false_eq_true, false_iff]
    rintro ⟨-, -, hsd, hed, -⟩
    rcases h2 with h | h <;> simp_all
  · simp only [Bool.not_eq_true, Bool.or_eq_false_iff, decide_eq_false_iff_not,
      not_lt] at h1 h2
    constructor
    · intro hm
      exact ⟨by omega, by omega, h2.1, h2.2, hm⟩
    · rintro ⟨-, -, -, -, hm⟩
      exact hm

lemma parse_agent_uri_some (u p : Str) (h : parse_agent_uri u = some p) :
    p = pyLower (u.drop 8) := by
  unfold parse_agent_uri at h
  by_cases hp : startsWithPy (pys "agent://") u = true
  · simp only [hp, if_true] at h
    split_ifs at h
    rw [Option.some.injEq] at h
    exact h.symm
  · simp only [Bool.not_eq_true] at hp
    simp only [hp] at h
    simp at h

/-- Counterexample to claim C8, in both directions of its "exactly
when".  The string `a` followed by code point U+10000 satisfies the
claim's predicate (length 2, no hyphen edges, every character lowercase
alphanumeric or at least U+0080), yet `validate_agent_name` rejects it:
the source regular expression admits only U+0080 through U+FFFF.
Conversely `validate_agent_name` accepts `ab` followed by a newline —
CPython's `$` anchor matches before one trailing newline — although the
newline is outside the claim's alphabet, so the claim's predicate
rejects it. -/
theorem c8_counterexample :
    (claimed_valid_name [97, 65536] = true ∧ validate_agent_name [97, 65536] = false) ∧
    (validate_agent_name [97, 98, 10] = true ∧
      claimed_valid_name [97, 98, 10] = false) := by decide

/-- Claim C8 as amended: `validate_agent_name s` is true exactly when
`s` has length 2 to 50 — measured on the string as given, before
lowercasing, which is where the source checks it — `s` neither starts
nor ends with a hyphen, and the lowercased string, either as it stands
or after dropping the single trailing newline that CPython's `$` anchor
tolerates, is non-empty, consists of lowercase ASCII alphanumerics,
hyphens, and code points in U+0080 through U+FFFF, and has no hyphen at
either end.  The U+FFFF upper bound, the trailing-newline allowance, and
the pre-lowering length measurement are the amendments the
counterexamples force.  Falsity for every string of invalid length over
the valid alphabet, and for valid-length strings with a hyphen at either
edge, is immediate from the equivalence. -/
theorem c8_validate_name_characterization (s : Str) :
    validate_agent_name s = true ↔
      (2 ≤ s.length ∧ s.length ≤ 50 ∧
       startsDash s = false ∧ endsDash s = false ∧
       (amendedNameCore (pyLower s) ∨
        ((pyLower s).getLast? = some 10 ∧ amendedNameCore ((pyLower s).dropLast)))) := by
  rw [validate_agent_name_iff, agentNameReMatch_iff_amended]


lemma resolveRemote_response_ok (cfg : DNSResolverConfig) (cache : Cache) (now : Int)
    (net : Str → NetResult) (name : Str) (data : Json) (agent : ResolvedAgent) (t : Int)
    (hnet : net name = .response 200 (some data))
    (hparse : parsePayload cfg now name data = .ok agent)
    (httl : pyNum agent.ttl = some t) :
    DNSResolver.resolveRemote cfg cache now net name =
      (.ok agent, aset cache name { agent := agent, expires_at := now + t }, true) := by
  simp only [DNSResolver.resolveRemote, hnet]
  norm_num
  simp only [hparse, httl]

lemma resolve_hit (cfg : DNSResolverConfig) (cache : Cache) (now : Int)
    (net : Str → NetResult) (target name : Str) (e : CacheEntry)
    (hname : DNSResolver.resolveName target = .ok name)
    (he : alookup cache name = some e) (hlt : now < e.expires_at) :
    DNSResolver.resolve cfg cache now net target = (.ok e.agent, cache, false) := by
  simp only [DNSResolver.resolve, hname, he]
  rw [if_pos hlt]

lemma resolve_miss_net (cfg : DNSResolverConfig) (cache : Cache) (now : Int)
    (net : Str → NetResult) (target name : Str)
    (hname : DNSResolver.resolveName target = .ok name)
    (hmiss : alookup cache name = none ∨
      ∃ e, alookup cache name = some e ∧ e.expires_at ≤ now) :
    DNSResolver.resolve cfg cache now net target =
      DNSResolver.resolveRemote cfg cache now net name := by
  rcases hmiss with h | ⟨e, he, hle⟩
  · simp only [DNSResolver.resolve, hname, h]
  · simp only [DNSResolver.resolve, hname, he]
    rw [if_neg (not_lt.mpr hle)]

lemma resolveRemote_not_ok_cache (cfg : DNSResolverConfig) (cache : Cache) (now : Int)
    (net : Str → NetResult) (name : Str) (out : ResolveOutcome) (c : Cache) (b : Bool)
    (h : DNSResolver.resolveRemote cfg cache now net name = (out, c, b))
    (hno : ∀ a, out ≠ .ok a) : c = cache := by
  unfold DNSResolver.resolveRemote at h
  cases hn : net name with
  | timeout =>
      simp only [hn] at h
      exact (congrArg (fun p => p.2.1) h).symm
  | connectError m =>
      simp only [hn] at h
      exact (congrArg (fun p => p.2.1) h).symm
  | response status body =>
      simp only [hn] at h
      split_ifs at h
      · exact (congrArg (fun p => p.2.1) h).symm
      · exact (congrArg (fun p => p.2.1) h).symm
      · cases body with
        | none => exact (congrArg (fun p => p.2.1) h).symm
        | some data =>
            cases hp : parsePayload cfg now name data with
            | error m =>
                simp only [hp] at h
                exact (congrArg (fun p => p.2.1) h).symm
            | ok agent =>
                simp only [hp] at h
                cases ht : pyNum agent.ttl with
                | none =>
                    simp only [ht] at h
                    exact (congrArg (fun p => p.2.1) h).symm
                | some t =>
                    simp only [ht] at h
                    exact absurd (congrArg (fun p => p.1) h).symm (hno agent)

/-- Claim C2: with a still-fresh cache entry for the canonical name,
`resolve` returns the cached endpoint, makes no service call, and leaves
the cache unchanged; on a miss or an expired entry it issues one service
call and overwrites the entry with `expires_at = now + ttl`; a second
resolution of the same target before that expiry is then served from the
cache with no further service call, so two resolutions within the TTL
issue at most one call. -/
theorem c2_cache_ttl (cfg : DNSResolverConfig) (cache : Cache) (now now2 : Int)
    (net : Str → NetResult) (target name : Str)
    (hname : DNSResolver.resolveName target = .ok name) :
    (∀ e, alookup cache name = some e → now < e.expires_at →
      DNSResolver.resolve cfg cache now net target = (.ok e.agent, cache, false))
    ∧ (∀ data agent t,
        (alookup cache name = none ∨
          ∃ e, alookup cache name = some e ∧ e.expires_at ≤ now) →
        net name = .response 200 (some data) →
        parsePayload cfg now name data = .ok agent →
        pyNum agent.ttl = some t →
        DNSResolver.resolve cfg cache now net target =
          (.ok agent, aset cache name { agent := agent, expires_at := now + t }, true)
        ∧ (now2 < now + t →
            DNSResolver.resolve cfg
                (aset cache name { agent := agent, expires_at := now + t }) now2 net target =
              (.ok agent, aset cache name { agent := agent, expires_at := now + t }, false))) := by
  constructor
  · intro e he hlt
    exact resolve_hit cfg cache now net target name e hname he hlt
  · intro data agent t hmiss hnet hparse httl
    constructor
    · rw [resolve_miss_net cfg cache now net target name hname hmiss]
      exact resolveRemote_response_ok cfg cache now net name data agent t hnet hparse httl
    · intro h2
      exact resolve_hit cfg _ now2 net target name _ hname (alookup_aset_self ..) h2

/-- Witness for C2: a fresh resolution of `bob` against the concrete
service makes one call and caches the endpoint with `expires_at = 300`; a
second resolution at time 5 returns the same endpoint with no call. -/
theorem c2_cache_ttl_witness :
    DNSResolver.resolve exCfg [] 0 exNet (pys "bob") =
      (.ok exAgentBob, aset [] (pys "bob") { agent := exAgentBob, expires_at := 300 }, true) ∧
    DNSResolver.resolve exCfg
        (aset [] (pys "bob") { agent := exAgentBob, expires_at := 300 }) 5 exNet (pys "bob") =
      (.ok exAgentBob, aset [] (pys "bob") { agent := exAgentBob, expires_at := 300 }, false) := by
  have h := (c2_cache_ttl exCfg [] 0 5 exNet (pys "bob") (pys "bob") rfl).2
    exPayload exAgentBob 300 (Or.inl rfl) rfl rfl rfl
  exact ⟨h.1, h.2 (by decide)⟩

/-- Claim C3: a target that is neither a valid bare name nor a valid
`agent://` URI fails with the `INVALID_NAME` error kind, makes no service
call, and leaves the cache unchanged; and in general no resolution that
fails (whatever the failure) writes a cache entry. -/
theorem c3_invalid_target_no_write (cfg : DNSResolverConfig) (cache : Cache) (now : Int)
    (net : Str → NetResult) (target : Str)
    (hbare : validate_agent_name target = false)
    (huri : is_valid_agent_uri target = false) :
    (∃ m, DNSResolver.resolve cfg cache now net target =
      (.dnsError .INVALID_NAME m, cache, false))
    ∧ (∀ (target' : Str) (out : ResolveOutcome) (c : Cache) (b : Bool),
        DNSResolver.resolve cfg cache now net target' = (out, c, b) →
        (∀ a, out ≠ .ok a) → c = cache) := by
  constructor
  · have hname : ∃ m, DNSResolver.resolveName target = .error m := by
      unfold DNSResolver.resolveName
      by_cases hp : startsWithPy (pys "agent://") target = true
      · simp only [hp, if_true]
        have hpar : parse_agent_uri target = none := by
          cases hpar : parse_agent_uri target with
          | none => rfl
          | some p =>
              rw [is_valid_agent_uri, hpar] at huri
              simp at huri
        rw [hpar]
        exact ⟨_, rfl⟩
      · simp only [Bool.not_eq_true] at hp
        simp only [hp, Bool.false_eq_true, if_false, hbare]
        exact ⟨_, rfl⟩
    obtain ⟨m, hm⟩ := hname
    exact ⟨m, by simp only [DNSResolver.resolve, hm]⟩
  · intro target' out c b hres hno
    unfold DNSResolver.resolve at hres
    cases hn : DNSResolver.resolveName target' with
    | error m =>
        simp only [hn] at hres
        exact (congrArg (fun p => p.2.1) hres).symm
    | ok name =>
        simp only [hn] at hres
        cases hl : alookup cache name with
        | none =>
            simp only [hl] at hres
            exact resolveRemote_not_ok_cache cfg cache now net name out c b hres hno
        | some e =>
            simp only [hl] at hres
            by_cases hlt : now < e.expires_at
            · rw [if_pos hlt] at hres
              exact (congrArg (fun p => p.2.1) hres).symm
            · rw [if_neg hlt] at hres
              exact resolveRemote_not_ok_cache cfg cache now net name out c b hres hno

/-- Witness for C3 at the concrete malformed URI `agent://bad_name!`:
the outcome carries the `INVALID_NAME` code, no call is made, and the
cache stays empty. -/
theorem c3_invalid_target_no_write_witness :
    outcomeCode (DNSResolver.resolve exCfg [] 0 exNet (pys "agent://bad_name!")).1 =
      some DNSErrorCode.INVALID_NAME ∧
    (DNSResolver.resolve exCfg [] 0 exNet (pys "agent://bad_name!")).2.1 = [] ∧
    (DNSResolver.resolve exCfg [] 0 exNet (pys "agent://bad_name!")).2.2 = false := by
  obtain ⟨m, hm⟩ := (c3_invalid_target_no_write exCfg [] 0 exNet (pys "agent://bad_name!")
    (by decide) (by decide)).1
  rw [hm]
  exact ⟨rfl, rfl, rfl⟩

/-- Counterexample to claim C4: the resolver canonicalizes only the
`agent://` URI path.  A bare uppercase name passes validation and is used
verbatim, so resolving `ALICE` writes the cache under key `ALICE`, a
subsequent resolution of `alice` misses that entry, and a second service
call is made within the first entry's TTL — `ALICE` and `alice` do not
share a cache entry. -/
theorem c4_counterexample :
    (DNSResolver.resolve exCfg [] 0 exNet (pys "ALICE")).2.2 = true ∧
    alookup (DNSResolver.resolve exCfg [] 0 exNet (pys "ALICE")).2.1 (pys "alice") = none ∧
    (alookup (DNSResolver.resolve exCfg [] 0 exNet (pys "ALICE")).2.1 (pys "ALICE")).isSome
      = true ∧
    (DNSResolver.resolve exCfg (DNSResolver.resolve exCfg [] 0 exNet (pys "ALICE")).2.1
      1 exNet (pys "alice")).2.2 = true := by
  exact ⟨rfl, rfl, rfl, rfl⟩

/-- Claim C4 as amended: the name the resolver keys its cache and service
lookup by is the parsed, lowercased name when the target is an
`agent://` URI (and that key is lowercase-invariant), but it is the
target string exactly as given when the target is a bare name — bare
names are validated, not canonicalized, so `ALICE` and `alice` key
distinct cache entries. -/
theorem c4_cache_key (target name : Str)
    (h : DNSResolver.resolveName target = .ok name) :
    (startsWithPy (pys "agent://") target = true →
      name = pyLower (target.drop 8) ∧ pyLower name = name)
    ∧ (startsWithPy (pys "agent://") target = false → name = target) := by
  constructor
  · intro hp
    unfold DNSResolver.resolveName at h
    simp only [hp, if_true] at h
    cases hpar : parse_agent_uri target with
    | none =>
        simp only [hpar] at h
        exact absurd h (by simp)
    | some p =>
        simp only [hpar] at h
        split_ifs at h
        rw [Except.ok.injEq] at h
        subst h
        have hpl := parse_agent_uri_some target p hpar
        exact ⟨hpl, by rw [hpl, pyLower_idem]⟩
  · intro hp
    unfold DNSResolver.resolveName at h
    simp only [hp, Bool.false_eq_true, if_false] at h
    split_ifs at h
    rw [Except.ok.injEq] at h
    exact h.symm

/-- Witness for C4 (amended): the URI target `agent://My-Agent` resolves
to the lowercased key `my-agent`, while the bare target `ALICE` is keyed
verbatim. -/
theorem c4_cache_key_witness :
    (pys "my-agent" = pyLower ((pys "agent://My-Agent").drop 8) ∧
      pyLower (pys "my-agent") = pys "my-agent") ∧
    pys "ALICE" = pys "ALICE" := by
  exact ⟨(c4_cache_key (pys "agent://My-Agent") (pys "my-agent") rfl).1 rfl,
    (c4_cache_key (pys "ALICE") (pys "ALICE") rfl).2 rfl⟩

/-- Claim C10 at its failing input: a 200 response whose JSON body is the
array `[]` reaches `data.get("agent", data)` outside the `try` block, so
an untyped `AttributeError` escapes `resolve` instead of a `DNSError` —
while a 200 response whose body is not valid JSON at all fails inside the
`try` block and is correctly reported as `SERVER_ERROR`. -/
theorem c10_untyped_escape :
    DNSResolver.resolve exCfg [] 0 exNetArr (pys "alice") =
      (.pyError (pys "AttributeError: object has no attribute get"), [], true) ∧
    DNSResolver.resolve exCfg [] 0 exNetBadJson (pys "alice") =
      (.dnsError .SERVER_ERROR (pys "Unexpected error: invalid JSON"), [], true) := by
  exact ⟨rfl, rfl⟩

example : parse_agent_uri (pys "agent://alice") = some (pys "alice") := by decide
example : parse_agent_uri (pys "agent://My-Agent") = some (pys "my-agent") := by decide
example : parse_agent_uri (pys "invalid") = none := by decide
example : validate_agent_name (pys "alice") = true := by decide
example : validate_agent_name (pys "a") = false := by decide
example : validate_agent_name (pys "ALICE") = true := by decide
example : validate_agent_name (pys "-ab") = false := by decide
example : parse_agent_uri (pys "agent://bad_name!") = none := by decide
example : validate_agent_name (pys "ab\n") = true := by decide
example : validate_agent_name (pys "ab\n\n") = false := by decide
example : validate_agent_name (pys "a-\n") = false := by decide
